import Mathlib

/-!
Verification of the `easy_curl` HTTP client wrapper (src/easy_curl.h,
src/easy_curl.cpp) against its natural-language specification.

The development is a shallow embedding of the source.  Pure C++ helpers
(`TranslateError`, `WriteCallback`) become Lean functions.  The stateful
request routine `EasyCurl::DoRequest` becomes a pure function from the
client state, the request arguments and a transport oracle (standing for
libcurl, which is external to the repository) to a result record that
carries the returned `Error`, the destination buffer, the updated client
state and a trace of the operations handed to the transport.

Machine integers: `timeout_secs_`, `num_connects_` and the HTTP response
code are modeled as `Int` (C `int`/`long`; no arithmetic in the source can
overflow them), CURLcode values as `Nat`.
-/

set_option linter.unusedVariables false

/-- ErrorCode from src/easy_curl.h (the full enumeration). -/
inductive ErrorCode
  | kOk
  | kNotFound
  | kCorruption
  | kNotSupported
  | kInvalidArgument
  | kIOError
  | kAlreadyPresent
  | kRuntimeError
  | kNetworkError
  | kIllegalState
  | kNotAuthorized
  | kAborted
  | kRemoteError
  | kServiceUnavailable
  | kTimedOut
  | kUninitialized
  | kConfigurationError
  | kIncomplete
  | kEndOfFile
  deriving DecidableEq, Repr

/-- Error from src/easy_curl.h: a code plus a message string. -/
structure Error where
  code : ErrorCode
  msg : String
  deriving DecidableEq, Repr

/-- The one-argument constructor `Error(ErrorCode code)` leaves `msg`
default-constructed, i.e. empty. -/
def Error.ofCode (c : ErrorCode) : Error := ⟨c, ""⟩

/-- CurlAuthType is a C++ scoped enum (`enum class`), whose underlying type
defaults to `int`; every `int` value is a value of the type, so it is
modeled as `Int` with the two declared enumerators `NONE = 0` and
`BASIC = 1`.  Values other than 0 and 1 are reachable by a cast and hit
the `default:` branch of the switch in `DoRequest`. -/
abbrev CurlAuthType := Int

/-- CurlAuthType::NONE. -/
def CurlAuthType.NONE : CurlAuthType := 0

/-- CurlAuthType::BASIC. -/
def CurlAuthType.BASIC : CurlAuthType := 1

/-- The libcurl success code CURLE_OK. -/
def CURLE_OK : Nat := 0

/-- The libcurl timeout code CURLE_OPERATION_TIMEDOUT (value 28). -/
def CURLE_OPERATION_TIMEDOUT : Nat := 28

/-- TranslateError from src/easy_curl.cpp lines 34-48.  `strerror` stands
for the external pure lookup `curl_easy_strerror`; `errbuf` is the
content of the per-request error buffer at the time of the failure. -/
def TranslateError (strerror : Nat → String) (code : Nat) (errbuf : String) : Error :=
  if code = CURLE_OK then
    Error.ofCode ErrorCode.kOk
  else
    let err_msg : String :=
      (strerror code) ++ (if errbuf.length ≠ 0 then ": " ++ errbuf else "")
    if code = CURLE_OPERATION_TIMEDOUT then
      ⟨ErrorCode.kTimedOut, "curl timeout" ++ err_msg⟩
    else
      ⟨ErrorCode.kNetworkError, "curl error" ++ err_msg⟩

/-- WriteCallback from src/easy_curl.cpp lines 51-56: appends the
`size * nmemb` bytes of the delivered chunk to the user buffer and
returns that byte count (signalling full acceptance to the transport). -/
def WriteCallback (chunk : String) (buf : String) : String × Nat :=
  (buf ++ chunk, chunk.length)

/-- Values passed for CURLOPT_HTTPAUTH: the libcurl bitmask constants
CURLAUTH_BASIC and CURLAUTH_ANY, kept symbolic. -/
inductive HttpAuthVal
  | basic
  | any
  deriving DecidableEq, Repr

/-- One `curl_easy_setopt` call as issued by `DoRequest`, together with
the value handed to the transport.  Boolean options appear without a
payload because the source only ever sets them to 1. -/
inductive SetOp
  | httpauth (v : HttpAuthVal)
  | username (s : String)
  | password (s : String)
  | verbose
  | failonerror
  | httpheader (l : List String)
  | url (s : String)
  | header
  | writefunction
  | writedata
  | postfields (s : String)
  | nosignal
  | timeout (n : Int)
  | dns_servers (s : String)
  deriving DecidableEq, Repr

/-- The option store of the reusable curl easy handle (`curl_`).  The
handle persists across calls; `curl_easy_setopt` overwrites single
entries and nothing in the source ever resets one. -/
@[ext] structure CurlHandle where
  httpauth : Option HttpAuthVal
  username : Option String
  password : Option String
  verbose : Bool
  failonerror : Bool
  httpheader : List String
  url : Option String
  header : Bool
  writefunction_set : Bool
  writedata_set : Bool
  postfields : Option String
  nosignal : Bool
  timeout : Int
  dns_servers : Option String
  deriving DecidableEq, Repr

/-- A freshly created easy handle: no option set, libcurl defaults
(verbose/failonerror/header off, timeout 0 meaning none). -/
def CurlHandle.initial : CurlHandle :=
  ⟨none, none, none, false, false, [], none, false, false, false, none, false, 0, none⟩

/-- Effect of a successful `curl_easy_setopt` on the handle's option
store: the named option is overwritten, everything else kept. -/
def CurlHandle.apply (h : CurlHandle) (op : SetOp) : CurlHandle :=
  match op with
  | SetOp.httpauth v => { h with httpauth := some v }
  | SetOp.username s => { h with username := some s }
  | SetOp.password s => { h with password := some s }
  | SetOp.verbose => { h with verbose := true }
  | SetOp.failonerror => { h with failonerror := true }
  | SetOp.httpheader l => { h with httpheader := l }
  | SetOp.url s => { h with url := some s }
  | SetOp.header => { h with header := true }
  | SetOp.writefunction => { h with writefunction_set := true }
  | SetOp.writedata => { h with writedata_set := true }
  | SetOp.postfields s => { h with postfields := some s }
  | SetOp.nosignal => { h with nosignal := true }
  | SetOp.timeout n => { h with timeout := n }
  | SetOp.dns_servers s => { h with dns_servers := some s }

/-- Trace of the transport-facing actions of one `DoRequest` call. -/
inductive Event
  | setopt (op : SetOp) (code : Nat)
  | slistAppend (s : String)
  | perform (h : CurlHandle) (code : Nat)
  | slistFreeAll (l : List String)
  deriving DecidableEq, Repr

/-- Outcome of `curl_easy_perform` on a given handle state: the CURLcode,
the body chunks delivered to the write callback in arrival order, the
error-buffer detail written during a failed transfer, and the values
later readable through `curl_easy_getinfo`. -/
structure PerformOutcome where
  code : Nat
  chunks : List String
  detail : String
  numConnects : Int
  responseCode : Int
  deriving DecidableEq, Repr

/-- The external transport (libcurl), as an oracle: result codes of the
option-setting calls, the per-option error-buffer detail on failure, the
behaviour of `curl_easy_perform` as a function of the handle state at
perform time, result codes of the two `curl_easy_getinfo` calls, and an
oracle `oobRead` giving the indeterminate bytes found by an out-of-bounds
read past a string literal (needed to model `"HTTP " + val`, which is
pointer arithmetic in C++). -/
structure Transport where
  strerror : Nat → String
  setoptCode : SetOp → Nat
  setoptDetail : SetOp → String
  perform : CurlHandle → PerformOutcome
  getinfoConnectsCode : Nat
  getinfoResponseCode : Nat
  oobRead : Int → String

/-- C++ semantics of `lit + n` followed by conversion to `std::string`,
where `lit` is a string literal of length L (so an array of L+1 chars
counting the terminating NUL) and `n` an integer: pointer arithmetic.
For `0 ≤ n ≤ L` the result is the suffix of the literal starting at
offset `n` (empty when `n = L`, the NUL).  Any other offset is an
out-of-bounds read with indeterminate result, modeled by the oracle. -/
def cStrPlus (lit : String) (n : Int) (oob : Int → String) : String :=
  if 0 ≤ n ∧ n ≤ (lit.length : Int) then lit.drop n.toNat else oob n

/-- The mutable per-instance configuration and state of class EasyCurl
(src/easy_curl.h lines 144-166). -/
structure EasyCurl where
  curl_ : CurlHandle
  return_headers_ : Bool
  verbose_ : Bool
  fail_on_http_error_ : Bool
  timeout_secs_ : Int
  dns_servers_ : String
  num_connects_ : Int
  errbuf_ : String
  username_ : String
  password_ : String
  auth_type_ : CurlAuthType
  deriving DecidableEq, Repr

/-- State of a freshly constructed EasyCurl: fresh handle, field
initializers from the header, `timeout_secs_(-1)` from the constructor.
(`errbuf_` is an uninitialized char array in C++; it is cleared at the
start of every request, so its initial content is irrelevant and taken
empty here.) -/
def EasyCurl.init : EasyCurl :=
  { curl_ := CurlHandle.initial
    return_headers_ := false
    verbose_ := false
    fail_on_http_error_ := false
    timeout_secs_ := -1
    dns_servers_ := ""
    num_connects_ := 0
    errbuf_ := ""
    username_ := ""
    password_ := ""
    auth_type_ := CurlAuthType.NONE }

/-- set_return_headers (header line 92). -/
def EasyCurl.set_return_headers (s : EasyCurl) (v : Bool) : EasyCurl :=
  { s with return_headers_ := v }

/-- set_timeout (header line 96). -/
def EasyCurl.set_timeout (s : EasyCurl) (secs : Int) : EasyCurl :=
  { s with timeout_secs_ := secs }

/-- set_dns_servers (header line 103). -/
def EasyCurl.set_dns_servers (s : EasyCurl) (d : String) : EasyCurl :=
  { s with dns_servers_ := d }

/-- set_auth (header lines 107-113).  Stores all three fields and returns
`kOk` (via the converting one-argument `Error` constructor, so the
message is empty).  In C++ the username and password parameters default
to the empty string; the model passes them explicitly. -/
def EasyCurl.set_auth (s : EasyCurl) (auth_type : CurlAuthType)
    (username : String) (password : String) : Error × EasyCurl :=
  (Error.ofCode ErrorCode.kOk,
   { s with auth_type_ := auth_type, username_ := username, password_ := password })

/-- set_verbose (header line 117). -/
def EasyCurl.set_verbose (s : EasyCurl) (v : Bool) : EasyCurl :=
  { s with verbose_ := v }

/-- set_fail_on_http_error (header line 125). -/
def EasyCurl.set_fail_on_http_error (s : EasyCurl) (v : Bool) : EasyCurl :=
  { s with fail_on_http_error_ := v }

/-- num_connects (header lines 130-132). -/
def EasyCurl.num_connects (s : EasyCurl) : Int :=
  s.num_connects_

/-- The configuration fields of EasyCurl that `DoRequest` reads but never
writes (everything except `curl_`, `errbuf_` and `num_connects_`). -/
structure Config where
  return_headers_ : Bool
  verbose_ : Bool
  fail_on_http_error_ : Bool
  timeout_secs_ : Int
  dns_servers_ : String
  username_ : String
  password_ : String
  auth_type_ : CurlAuthType
  deriving DecidableEq, Repr

/-- Read-only view of the configuration fields. -/
def EasyCurl.config (s : EasyCurl) : Config :=
  ⟨s.return_headers_, s.verbose_, s.fail_on_http_error_, s.timeout_secs_,
   s.dns_servers_, s.username_, s.password_, s.auth_type_⟩

/-- The per-request state threaded through the `curl_easy_setopt`
sequence: handle option store, error buffer, event trace. -/
structure RunState where
  h : CurlHandle
  errbuf : String
  events : List Event
  deriving DecidableEq, Repr

/-- Run a sequence of `curl_easy_setopt` calls, each wrapped in
CURL_RETURN_NOT_OK (src/easy_curl.cpp lines 61-66): on the first failing
call the sequence aborts with the state at that point and the failing
CURLcode; a failing call leaves the option store unchanged and the
transport writes its detail into the error buffer. -/
def runOps (tr : Transport) : RunState → List SetOp → Except (RunState × Nat) RunState
  | s, [] => Except.ok s
  | s, op :: rest =>
    let code := tr.setoptCode op
    if code = 0 then
      runOps tr ⟨s.h.apply op, s.errbuf, s.events ++ [Event.setopt op code]⟩ rest
    else
      Except.error (⟨s.h, tr.setoptDetail op, s.events ++ [Event.setopt op code]⟩, code)

/-- The option-setting calls before the header list exists
(src/easy_curl.cpp lines 120-142): the auth switch, the credentials, and
the verbose / fail-on-http-error flags.  The values depend only on the
configuration fields, which the request never mutates, so the sequence
is computed up front. -/
def opsA (cfg : Config) : List SetOp :=
  (if cfg.auth_type_ = CurlAuthType.BASIC then [SetOp.httpauth HttpAuthVal.basic]
   else if cfg.auth_type_ = CurlAuthType.NONE then []
   else [SetOp.httpauth HttpAuthVal.any])
  ++ (if cfg.auth_type_ ≠ CurlAuthType.NONE then
        [SetOp.username cfg.username_, SetOp.password cfg.password_]
      else [])
  ++ (if cfg.verbose_ then [SetOp.verbose] else [])
  ++ (if cfg.fail_on_http_error_ then [SetOp.failonerror] else [])

/-- The header list built by the `curl_slist_append` loop
(src/easy_curl.cpp lines 150-152): starting from the null list, each
header string is appended at the end. -/
def slistOf (headers : List String) : List String :=
  headers.foldl (fun l x => l ++ [x]) []

/-- The `curl_slist_append` events of the loop. -/
def appendEvents (headers : List String) : List Event :=
  headers.map Event.slistAppend

/-- The option-setting calls made while the scoped cleanup of the header
list is armed (src/easy_curl.cpp lines 153-173): header list, URL,
optional header echo, write target, optional POST body, optional
timeout, optional DNS override. -/
def opsB (cfg : Config) (url : String) (post_data : Option String)
    (headers : List String) : List SetOp :=
  [SetOp.httpheader (slistOf headers), SetOp.url url]
  ++ (if cfg.return_headers_ then [SetOp.header] else [])
  ++ [SetOp.writefunction, SetOp.writedata]
  ++ (match post_data with | some d => [SetOp.postfields d] | none => [])
  ++ (if 0 < cfg.timeout_secs_ then [SetOp.nosignal, SetOp.timeout cfg.timeout_secs_] else [])
  ++ (if cfg.dns_servers_ ≠ "" then [SetOp.dns_servers cfg.dns_servers_] else [])

/-- Result of the core of `DoRequest`: returned error, destination
buffer, final handle store and error buffer, the value assigned to
`num_connects_` (none when the assignment at line 178 was not reached),
and the event trace. -/
structure CoreResult where
  error : Error
  dst : String
  h : CurlHandle
  errbuf : String
  nc : Option Int
  events : List Event
  deriving Repr

/-- Destination buffer content produced during one perform: the cleared
buffer with every delivered chunk appended by `WriteCallback`, in
arrival order. -/
def performDst (out : PerformOutcome) : String :=
  out.chunks.foldl (fun b ch => (WriteCallback ch b).1) ""

/-- The tail of `DoRequest` from `curl_easy_perform` on
(src/easy_curl.cpp lines 175-184): perform, read the connection count,
read the response code, and apply the status-range check.  Every branch
releases the header list once (the scoped cleanup runs on return).  The
message of the RemoteError is `"HTTP " + val`: C++ pointer arithmetic on
the literal, see `cStrPlus`. -/
def postPerform (tr : Transport) (slist : List String) (s : RunState) : CoreResult :=
  if (tr.perform s.h).code ≠ 0 then
    ⟨TranslateError tr.strerror (tr.perform s.h).code (tr.perform s.h).detail,
     performDst (tr.perform s.h), s.h, (tr.perform s.h).detail, none,
     s.events ++ [Event.perform s.h (tr.perform s.h).code] ++ [Event.slistFreeAll slist]⟩
  else if tr.getinfoConnectsCode ≠ 0 then
    ⟨TranslateError tr.strerror tr.getinfoConnectsCode s.errbuf,
     performDst (tr.perform s.h), s.h, s.errbuf, none,
     s.events ++ [Event.perform s.h (tr.perform s.h).code] ++ [Event.slistFreeAll slist]⟩
  else if tr.getinfoResponseCode ≠ 0 then
    ⟨TranslateError tr.strerror tr.getinfoResponseCode s.errbuf,
     performDst (tr.perform s.h), s.h, s.errbuf, some (tr.perform s.h).numConnects,
     s.events ++ [Event.perform s.h (tr.perform s.h).code] ++ [Event.slistFreeAll slist]⟩
  else if (tr.perform s.h).responseCode < 200 ∨ 300 ≤ (tr.perform s.h).responseCode then
    ⟨⟨ErrorCode.kRemoteError, cStrPlus "HTTP " (tr.perform s.h).responseCode tr.oobRead⟩,
     performDst (tr.perform s.h), s.h, s.errbuf, some (tr.perform s.h).numConnects,
     s.events ++ [Event.perform s.h (tr.perform s.h).code] ++ [Event.slistFreeAll slist]⟩
  else
    ⟨Error.ofCode ErrorCode.kOk,
     performDst (tr.perform s.h), s.h, s.errbuf, some (tr.perform s.h).numConnects,
     s.events ++ [Event.perform s.h (tr.perform s.h).code] ++ [Event.slistFreeAll slist]⟩

/-- Core of `EasyCurl::DoRequest` (src/easy_curl.cpp lines 111-185) as a
function of the read-only configuration and the incoming handle store.
The destination buffer and the error buffer are cleared first (lines
116-118).  Configuration failures before line 145 return before the
header list exists; from the `MakeScopedCleanup` on, every exit path
appends one `slistFreeAll`. -/
def doRequestCore (tr : Transport) (cfg : Config) (url : String)
    (post_data : Option String) (headers : List String) (h0 : CurlHandle) : CoreResult :=
  match runOps tr ⟨h0, "", []⟩ (opsA cfg) with
  | Except.error (s, code) =>
    ⟨TranslateError tr.strerror code s.errbuf, "", s.h, s.errbuf, none, s.events⟩
  | Except.ok sA =>
    let slist := slistOf headers
    match runOps tr ⟨sA.h, sA.errbuf, sA.events ++ appendEvents headers⟩
        (opsB cfg url post_data headers) with
    | Except.error (s, code) =>
      ⟨TranslateError tr.strerror code s.errbuf, "", s.h, s.errbuf, none,
       s.events ++ [Event.slistFreeAll slist]⟩
    | Except.ok sB => postPerform tr slist sB

/-- Result of a `DoRequest` call at the EasyCurl level. -/
structure ReqResult where
  error : Error
  dst : String
  st : EasyCurl
  events : List Event
  deriving Repr

/-- EasyCurl::DoRequest.  `dst0` is the previous content of the caller's
destination buffer; `dst->clear()` at line 116 discards it before
anything else happens.  `num_connects_` is overwritten only when the
assignment at line 178 was reached. -/
def DoRequest (tr : Transport) (st : EasyCurl) (url : String)
    (post_data : Option String) (dst0 : String) (headers : List String) : ReqResult :=
  let core := doRequestCore tr st.config url post_data headers st.curl_
  let st' := { st with
    curl_ := core.h
    errbuf_ := core.errbuf
    num_connects_ := core.nc.getD st.num_connects_ }
  ⟨core.error, core.dst, st', core.events⟩

/-- EasyCurl::FetchURL: a GET, i.e. `DoRequest` with no post data. -/
def FetchURL (tr : Transport) (st : EasyCurl) (url : String)
    (dst0 : String) (headers : List String) : ReqResult :=
  DoRequest tr st url none dst0 headers

/-- EasyCurl::PostToURL: a POST with the given body. -/
def PostToURL (tr : Transport) (st : EasyCurl) (url : String)
    (post_data : String) (dst0 : String) (headers : List String) : ReqResult :=
  DoRequest tr st url (some post_data) dst0 headers

/-! ### Characterizing the setopt sequence -/

/-- Handle store after a list of successful setopts. -/
def applyList (h : CurlHandle) (ops : List SetOp) : CurlHandle :=
  ops.foldl CurlHandle.apply h

/-- Trace of a run of setopts that all succeeded. -/
def okEvents (ops : List SetOp) : List Event :=
  ops.map (fun op => Event.setopt op 0)

/-- First failing setopt of a sequence under a given transport, together
with the successful prefix before it. -/
def firstFail (tr : Transport) : List SetOp → Option (List SetOp × SetOp)
  | [] => none
  | op :: rest =>
    if tr.setoptCode op = 0 then
      match firstFail tr rest with
      | none => none
      | some (pre, f) => some (op :: pre, f)
    else some ([], op)

lemma runOps_eq (tr : Transport) (ops : List SetOp) : ∀ s : RunState,
    runOps tr s ops =
      match firstFail tr ops with
      | none => Except.ok ⟨applyList s.h ops, s.errbuf, s.events ++ okEvents ops⟩
      | some (pre, f) =>
          Except.error (⟨applyList s.h pre, tr.setoptDetail f,
            s.events ++ okEvents pre ++ [Event.setopt f (tr.setoptCode f)]⟩,
            tr.setoptCode f) := by
  induction ops with
  | nil => intro s; simp [runOps, firstFail, applyList, okEvents]
  | cons op rest ih =>
    intro s
    by_cases hc : tr.setoptCode op = 0
    · rw [runOps]
      simp only [hc, if_pos]
      rw [ih]
      cases hff : firstFail tr rest with
      | none =>
        simp [firstFail, hc, hff, applyList, okEvents, List.append_assoc]
      | some pf =>
        obtain ⟨pre, f⟩ := pf
        simp [firstFail, hc, hff, applyList, okEvents, List.append_assoc]
    · rw [runOps]
      simp [firstFail, hc, applyList, okEvents]

lemma firstFail_eq_none (tr : Transport) (hset : ∀ op, tr.setoptCode op = 0) :
    ∀ ops, firstFail tr ops = none := by
  intro ops
  induction ops with
  | nil => simp [firstFail]
  | cons op rest ih => simp [firstFail, hset, ih]

lemma runOps_all_ok (tr : Transport) (hset : ∀ op, tr.setoptCode op = 0)
    (s : RunState) (ops : List SetOp) :
    runOps tr s ops = Except.ok ⟨applyList s.h ops, s.errbuf, s.events ++ okEvents ops⟩ := by
  rw [runOps_eq, firstFail_eq_none tr hset]

/-! ### Closed form of the configured handle -/

/-- Effect on the handle store of the successful pre-header-list setopts
(auth switch, credentials, verbose, fail-on-http-error). -/
def handleA (cfg : Config) (h : CurlHandle) : CurlHandle :=
  { h with
    httpauth :=
      if cfg.auth_type_ = CurlAuthType.BASIC then some HttpAuthVal.basic
      else if cfg.auth_type_ = CurlAuthType.NONE then h.httpauth
      else some HttpAuthVal.any
    username := if cfg.auth_type_ ≠ CurlAuthType.NONE then some cfg.username_ else h.username
    password := if cfg.auth_type_ ≠ CurlAuthType.NONE then some cfg.password_ else h.password
    verbose := h.verbose || cfg.verbose_
    failonerror := h.failonerror || cfg.fail_on_http_error_ }

/-- Effect on the handle store of the successful post-header-list setopts
(header list, URL, header echo, write target, POST body, timeout, DNS). -/
def handleB (cfg : Config) (url : String) (post_data : Option String)
    (headers : List String) (h : CurlHandle) : CurlHandle :=
  { h with
    httpheader := slistOf headers
    url := some url
    header := h.header || cfg.return_headers_
    writefunction_set := true
    writedata_set := true
    postfields := match post_data with | some d => some d | none => h.postfields
    nosignal := h.nosignal || decide (0 < cfg.timeout_secs_)
    timeout := if 0 < cfg.timeout_secs_ then cfg.timeout_secs_ else h.timeout
    dns_servers := if cfg.dns_servers_ ≠ "" then some cfg.dns_servers_ else h.dns_servers }

lemma basic_ne_none : CurlAuthType.BASIC ≠ CurlAuthType.NONE := by decide

lemma none_ne_basic : CurlAuthType.NONE ≠ CurlAuthType.BASIC := by decide

lemma applyList_opsA (cfg : Config) (h : CurlHandle) :
    applyList h (opsA cfg) = handleA cfg h := by
  by_cases hb : cfg.auth_type_ = CurlAuthType.BASIC
  · by_cases hv : cfg.verbose_ <;> by_cases hf : cfg.fail_on_http_error_ <;>
      apply CurlHandle.ext <;>
        simp [opsA, handleA, applyList, CurlHandle.apply, hb, hv, hf, basic_ne_none]
  · by_cases hn : cfg.auth_type_ = CurlAuthType.NONE
    · by_cases hv : cfg.verbose_ <;> by_cases hf : cfg.fail_on_http_error_ <;>
        apply CurlHandle.ext <;>
          simp [opsA, handleA, applyList, CurlHandle.apply, hb, hn, hv, hf, none_ne_basic]
    · by_cases hv : cfg.verbose_ <;> by_cases hf : cfg.fail_on_http_error_ <;>
        apply CurlHandle.ext <;>
          simp [opsA, handleA, applyList, CurlHandle.apply, hb, hn, hv, hf]

lemma applyList_opsB (cfg : Config) (url : String) (post_data : Option String)
    (headers : List String) (h : CurlHandle) :
    applyList h (opsB cfg url post_data headers) = handleB cfg url post_data headers h := by
  by_cases hr : cfg.return_headers_ <;>
  cases post_data <;>
  by_cases ht : 0 < cfg.timeout_secs_ <;>
  by_cases hd : cfg.dns_servers_ ≠ "" <;>
    apply CurlHandle.ext <;>
      simp [opsB, handleB, applyList, CurlHandle.apply, hr, ht, hd]

/-- Handle store at perform time: the incoming store with the whole
configuration applied on top (a successful call never resets an option,
it only sets them). -/
def configuredHandle (cfg : Config) (url : String) (post_data : Option String)
    (headers : List String) (h : CurlHandle) : CurlHandle :=
  handleB cfg url post_data headers (handleA cfg h)

lemma bool_or_absorb (a b : Bool) : (a || b || b) = (a || b) := by
  cases b <;> simp

lemma ite_absorb {α : Sort u} (c : Prop) [Decidable c] (v w : α) :
    (if c then v else (if c then v else w)) = if c then v else w := by
  split_ifs <;> rfl

lemma handleA_handleB_comm (cfg : Config) (url : String) (post_data : Option String)
    (headers : List String) (h : CurlHandle) :
    handleA cfg (handleB cfg url post_data headers h)
      = handleB cfg url post_data headers (handleA cfg h) := by
  cases post_data <;> apply CurlHandle.ext <;> simp [handleA, handleB]

lemma handleA_idem (cfg : Config) (h : CurlHandle) :
    handleA cfg (handleA cfg h) = handleA cfg h := by
  apply CurlHandle.ext <;> simp [handleA, bool_or_absorb] <;> intros <;>
    split_ifs <;> simp_all [basic_ne_none]

lemma handleB_idem (cfg : Config) (url : String) (post_data : Option String)
    (headers : List String) (h : CurlHandle) :
    handleB cfg url post_data headers (handleB cfg url post_data headers h)
      = handleB cfg url post_data headers h := by
  cases post_data <;> apply CurlHandle.ext <;>
      simp [handleB, bool_or_absorb] <;> intros <;>
    split_ifs <;> simp_all

lemma configuredHandle_idem (cfg : Config) (url : String) (post_data : Option String)
    (headers : List String) (h : CurlHandle) :
    configuredHandle cfg url post_data headers (configuredHandle cfg url post_data headers h)
      = configuredHandle cfg url post_data headers h := by
  unfold configuredHandle
  rw [handleA_handleB_comm, handleB_idem, handleA_idem]

lemma slistOf_eq (headers : List String) : slistOf headers = headers := by
  have general : ∀ (hs acc : List String), hs.foldl (fun l x => l ++ [x]) acc = acc ++ hs := by
    intro hs
    induction hs with
    | nil => intro acc; simp
    | cons x rest ih => intro acc; simp [List.foldl, ih]
  simpa [slistOf] using general headers []

/-! ### Master case analysis of doRequestCore -/

lemma core_cases (tr : Transport) (cfg : Config) (url : String)
    (post_data : Option String) (headers : List String) (h0 : CurlHandle) :
    doRequestCore tr cfg url post_data headers h0 =
      match firstFail tr (opsA cfg) with
      | some (pre, f) =>
        ⟨TranslateError tr.strerror (tr.setoptCode f) (tr.setoptDetail f), "",
         applyList h0 pre, tr.setoptDetail f, none,
         okEvents pre ++ [Event.setopt f (tr.setoptCode f)]⟩
      | none =>
        match firstFail tr (opsB cfg url post_data headers) with
        | some (pre, f) =>
          ⟨TranslateError tr.strerror (tr.setoptCode f) (tr.setoptDetail f), "",
           applyList (handleA cfg h0) pre, tr.setoptDetail f, none,
           okEvents (opsA cfg) ++ appendEvents headers ++ okEvents pre
             ++ [Event.setopt f (tr.setoptCode f)] ++ [Event.slistFreeAll (slistOf headers)]⟩
        | none =>
          postPerform tr (slistOf headers)
            ⟨configuredHandle cfg url post_data headers h0, "",
             okEvents (opsA cfg) ++ appendEvents headers
               ++ okEvents (opsB cfg url post_data headers)⟩ := by
  unfold doRequestCore
  rw [runOps_eq]
  cases hA : firstFail tr (opsA cfg) with
  | some pf =>
    obtain ⟨pre, f⟩ := pf
    simp
  | none =>
    simp only []
    rw [runOps_eq]
    cases hB : firstFail tr (opsB cfg url post_data headers) with
    | some pf =>
      obtain ⟨pre, f⟩ := pf
      simp [applyList_opsA, List.append_assoc]
    | none =>
      simp [configuredHandle, applyList_opsA, applyList_opsB, List.append_assoc]

/-! ### Event-trace observations -/

/-- Number of `curl_slist_free_all` calls in a trace. -/
def countFree (evs : List Event) : Nat :=
  evs.countP (fun e => match e with | Event.slistFreeAll _ => true | _ => false)

/-- The `curl_easy_perform` calls of a trace, with the handle state and
result code of each. -/
def performEvents (evs : List Event) : List (CurlHandle × Nat) :=
  evs.filterMap (fun e => match e with | Event.perform h c => some (h, c) | _ => none)

lemma countFree_append (a b : List Event) :
    countFree (a ++ b) = countFree a + countFree b := by
  simp [countFree, List.countP_append]

lemma countFree_okEvents (ops : List SetOp) : countFree (okEvents ops) = 0 := by
  induction ops with
  | nil => simp [okEvents, countFree]
  | cons op rest ih => simp [okEvents, countFree, List.countP_cons, ih]

lemma countFree_appendEvents (headers : List String) :
    countFree (appendEvents headers) = 0 := by
  induction headers with
  | nil => simp [appendEvents, countFree]
  | cons x rest ih => simp [appendEvents, countFree, List.countP_cons, ih]

lemma performEvents_append (a b : List Event) :
    performEvents (a ++ b) = performEvents a ++ performEvents b := by
  simp [performEvents]

lemma performEvents_okEvents (ops : List SetOp) : performEvents (okEvents ops) = [] := by
  induction ops with
  | nil => simp [okEvents, performEvents]
  | cons op rest ih => simp [okEvents, performEvents, ih]

lemma performEvents_appendEvents (headers : List String) :
    performEvents (appendEvents headers) = [] := by
  induction headers with
  | nil => simp [appendEvents, performEvents]
  | cons x rest ih => simp [appendEvents, performEvents, ih]

/-! ### Properties of the post-perform tail -/

lemma postPerform_h (tr : Transport) (slist : List String) (s : RunState) :
    (postPerform tr slist s).h = s.h := by
  unfold postPerform
  split_ifs <;> rfl

lemma postPerform_congr (tr : Transport) (slist slist' : List String) (s s' : RunState)
    (hh : s.h = s'.h) (he : s.errbuf = s'.errbuf) :
    (postPerform tr slist s).error = (postPerform tr slist' s').error ∧
    (postPerform tr slist s).dst = (postPerform tr slist' s').dst := by
  unfold postPerform
  rw [hh, he]
  split_ifs <;> simp

lemma postPerform_countFree (tr : Transport) (slist : List String) (s : RunState) :
    countFree (postPerform tr slist s).events = countFree s.events + 1 := by
  unfold postPerform
  split_ifs <;>
    simp [countFree_append, countFree, List.countP_cons]

lemma postPerform_performEvents (tr : Transport) (slist : List String) (s : RunState) :
    performEvents (postPerform tr slist s).events
      = performEvents s.events ++ [(s.h, (tr.perform s.h).code)] := by
  unfold postPerform
  split_ifs <;>
    simp [performEvents_append, performEvents]

lemma postPerform_nc (tr : Transport) (slist : List String) (s : RunState) :
    (postPerform tr slist s).nc = none ∨
    ((tr.perform s.h).code = 0 ∧ tr.getinfoConnectsCode = 0 ∧
     (postPerform tr slist s).nc = some (tr.perform s.h).numConnects) := by
  unfold postPerform
  split_ifs with h1 h2 h3 h4
  · exact Or.inl rfl
  · exact Or.inl rfl
  · exact Or.inr ⟨by omega, by omega, rfl⟩
  · exact Or.inr ⟨by omega, by omega, rfl⟩
  · exact Or.inr ⟨by omega, by omega, rfl⟩

/-! ### Derived facts about doRequestCore -/

lemma doRequestCore_all_ok (tr : Transport) (cfg : Config) (url : String)
    (post_data : Option String) (headers : List String) (h0 : CurlHandle)
    (hset : ∀ op, tr.setoptCode op = 0) :
    doRequestCore tr cfg url post_data headers h0 =
      postPerform tr (slistOf headers)
        ⟨configuredHandle cfg url post_data headers h0, "",
         okEvents (opsA cfg) ++ appendEvents headers
           ++ okEvents (opsB cfg url post_data headers)⟩ := by
  rw [core_cases, firstFail_eq_none tr hset, firstFail_eq_none tr hset]

lemma countFree_nil : countFree [] = 0 := rfl

lemma countFree_setopt_cons (op : SetOp) (c : Nat) (rest : List Event) :
    countFree (Event.setopt op c :: rest) = countFree rest := by
  simp [countFree, List.countP_cons]

lemma countFree_free_cons (l : List String) (rest : List Event) :
    countFree (Event.slistFreeAll l :: rest) = countFree rest + 1 := by
  simp [countFree, List.countP_cons]

lemma core_countFree (tr : Transport) (cfg : Config) (url : String)
    (post_data : Option String) (headers : List String) (h0 : CurlHandle) :
    countFree (doRequestCore tr cfg url post_data headers h0).events
      = (if (firstFail tr (opsA cfg)).isNone then 1 else 0) := by
  rw [core_cases]
  cases hA : firstFail tr (opsA cfg) with
  | some pf =>
    obtain ⟨pre, f⟩ := pf
    simp [countFree_append, countFree_okEvents, countFree_setopt_cons,
      countFree_free_cons, countFree_nil]
  | none =>
    cases hB : firstFail tr (opsB cfg url post_data headers) with
    | some pf =>
      obtain ⟨pre, f⟩ := pf
      simp [countFree_append, countFree_okEvents, countFree_appendEvents,
        countFree_setopt_cons, countFree_free_cons, countFree_nil]
    | none =>
      simp [postPerform_countFree, countFree_append, countFree_okEvents,
        countFree_appendEvents]

lemma core_nc (tr : Transport) (cfg : Config) (url : String)
    (post_data : Option String) (headers : List String) (h0 : CurlHandle) :
    (doRequestCore tr cfg url post_data headers h0).nc = none ∨
    ((tr.perform (configuredHandle cfg url post_data headers h0)).code = 0 ∧
     tr.getinfoConnectsCode = 0 ∧
     (doRequestCore tr cfg url post_data headers h0).nc
       = some (tr.perform (configuredHandle cfg url post_data headers h0)).numConnects) := by
  rw [core_cases]
  cases hA : firstFail tr (opsA cfg) with
  | some pf =>
    obtain ⟨pre, f⟩ := pf
    exact Or.inl rfl
  | none =>
    cases hB : firstFail tr (opsB cfg url post_data headers) with
    | some pf =>
      obtain ⟨pre, f⟩ := pf
      exact Or.inl rfl
    | none =>
      simpa using postPerform_nc tr (slistOf headers)
        ⟨configuredHandle cfg url post_data headers h0, "",
         okEvents (opsA cfg) ++ appendEvents headers
           ++ okEvents (opsB cfg url post_data headers)⟩

lemma core_repeat (tr : Transport) (cfg : Config) (url : String)
    (post_data : Option String) (headers : List String) (h0 : CurlHandle) :
    (doRequestCore tr cfg url post_data headers
        (doRequestCore tr cfg url post_data headers h0).h).error
      = (doRequestCore tr cfg url post_data headers h0).error ∧
    (doRequestCore tr cfg url post_data headers
        (doRequestCore tr cfg url post_data headers h0).h).dst
      = (doRequestCore tr cfg url post_data headers h0).dst := by
  rw [core_cases tr cfg url post_data headers h0]
  cases hA : firstFail tr (opsA cfg) with
  | some pf =>
    obtain ⟨pre, f⟩ := pf
    dsimp only
    rw [core_cases, hA]
    exact ⟨rfl, rfl⟩
  | none =>
    cases hB : firstFail tr (opsB cfg url post_data headers) with
    | some pf =>
      obtain ⟨pre, f⟩ := pf
      dsimp only
      rw [core_cases, hA, hB]
      exact ⟨rfl, rfl⟩
    | none =>
      dsimp only
      rw [postPerform_h,
        core_cases tr cfg url post_data headers
          (configuredHandle cfg url post_data headers h0), hA, hB]
      exact postPerform_congr tr (slistOf headers) (slistOf headers) _ _
        (by rw [configuredHandle_idem]) rfl

lemma postPerform_events (tr : Transport) (slist : List String) (s : RunState) :
    (postPerform tr slist s).events
      = s.events ++ [Event.perform s.h (tr.perform s.h).code]
          ++ [Event.slistFreeAll slist] := by
  unfold postPerform
  split_ifs <;> rfl

lemma postPerform_nc_of_ok (tr : Transport) (slist : List String) (s : RunState)
    (hp : (tr.perform s.h).code = 0) (hg : tr.getinfoConnectsCode = 0) :
    (postPerform tr slist s).nc = some (tr.perform s.h).numConnects := by
  unfold postPerform
  split_ifs <;> simp_all

lemma performDst_eq (out : PerformOutcome) :
    performDst out = String.join out.chunks := by
  simp [performDst, WriteCallback, String.join]

lemma string_length_eq_zero_iff (s : String) : s.length = 0 ↔ s = "" := by
  cases s with
  | mk data => simp [String.length, String.ext_iff]

/-! ### A fixture transport on which every operation succeeds -/

/-- A concrete transport: every setopt succeeds, every perform returns a
200 response with body chunks "hel", "lo" over one new connection. -/
def trOk : Transport :=
  { strerror := fun _ => "E"
    setoptCode := fun _ => 0
    setoptDetail := fun _ => ""
    perform := fun _ => ⟨0, ["hel", "lo"], "", 1, 200⟩
    getinfoConnectsCode := 0
    getinfoResponseCode := 0
    oobRead := fun _ => "" }

/-! ### Claim theorems -/

/-- Spec-side restatement of the error-translation contract (the amended
claim C2): success code gives Ok; the timeout code gives TimedOut with
message "curl timeout" followed by the diagnostic; any other non-zero
code gives NetworkError with message "curl error" followed by the
diagnostic; the diagnostic is the generic code-to-text string, extended
with ": " and the per-request detail exactly when the detail is
non-empty. -/
def TranslateErrorSpec (strerror : Nat → String) (code : Nat) (errbuf : String) : Error :=
  if code = CURLE_OK then
    Error.ofCode ErrorCode.kOk
  else
    let diag := if errbuf = "" then strerror code else strerror code ++ ": " ++ errbuf
    if code = CURLE_OPERATION_TIMEDOUT then
      ⟨ErrorCode.kTimedOut, "curl timeout" ++ diag⟩
    else
      ⟨ErrorCode.kNetworkError, "curl error" ++ diag⟩

/-- C2, counterexample: the claim's message literal is wrong.  At the
timeout code with generic text "Timeout was reached" and an empty detail
buffer, the produced message is "curl timeoutTimeout was reached" (the
source prefixes "curl timeout", with no separator), not
"request timed out: Timeout was reached" as the claim states. -/
theorem translate_error_claim_cex :
    (TranslateError (fun c => if c = 28 then "Timeout was reached" else "fail") 28 "").code
        = ErrorCode.kTimedOut
    ∧ (TranslateError (fun c => if c = 28 then "Timeout was reached" else "fail") 28 "").msg
        = "curl timeoutTimeout was reached"
    ∧ (TranslateError (fun c => if c = 28 then "Timeout was reached" else "fail") 28 "").msg
        ≠ "request timed out: Timeout was reached" := by
  refine ⟨rfl, rfl, ?_⟩
  decide

/-- C2, amended: TranslateError is a pure function equal to the spec-side
contract `TranslateErrorSpec` for every generic-text lookup, failure code
and detail buffer — i.e. the claim holds with the message prefixes
corrected to "curl timeout" / "curl error" (no separator before the
diagnostic). -/
theorem translate_error_amended (strerror : Nat → String) (code : Nat) (errbuf : String) :
    TranslateError strerror code errbuf = TranslateErrorSpec strerror code errbuf := by
  unfold TranslateError TranslateErrorSpec
  by_cases h0 : code = CURLE_OK
  · simp [h0]
  · by_cases he : errbuf = ""
    · have hlen : errbuf.length = 0 := (string_length_eq_zero_iff errbuf).mpr he
      simp [h0, he, hlen]
    · have hlen : errbuf.length ≠ 0 := fun hc => he ((string_length_eq_zero_iff errbuf).mp hc)
      by_cases ht : code = CURLE_OPERATION_TIMEDOUT <;>
        simp [h0, he, hlen, ht, String.append_assoc]

/-- C10: set_auth returns Ok (with an empty message) for every
combination of auth type, username and password, and unconditionally
stores all three; passing NONE with the (C++-defaulted) empty
credentials erases any previously stored username and password. -/
theorem set_auth_always_ok (s : EasyCurl) (t : CurlAuthType) (u p : String) :
    (s.set_auth t u p).1 = Error.ofCode ErrorCode.kOk
    ∧ (s.set_auth t u p).2.auth_type_ = t
    ∧ (s.set_auth t u p).2.username_ = u
    ∧ (s.set_auth t u p).2.password_ = p
    ∧ (s.set_auth CurlAuthType.NONE "" "").2.username_ = ""
    ∧ (s.set_auth CurlAuthType.NONE "" "").2.password_ = "" :=
  ⟨rfl, rfl, rfl, rfl, rfl, rfl⟩

/-- C1, code bug: when the transport round-trip succeeds with status
code 4 (outside [200,300)), the call returns kRemoteError — but the
message is " ", the suffix of the literal "HTTP " at offset 4, because
`"HTTP " + val` is pointer arithmetic, not concatenation.  The message
contains no digit at all, so it never contains the literal decimal
status code (for realistic codes such as 404 the read is out of bounds
altogether, see `cStrPlus`). -/
theorem http_status_message_bug :
    (FetchURL { trOk with perform := fun _ => ⟨0, ["body"], "", 1, 4⟩ }
        EasyCurl.init "http://x" "stale" []).error.code = ErrorCode.kRemoteError
    ∧ (FetchURL { trOk with perform := fun _ => ⟨0, ["body"], "", 1, 4⟩ }
        EasyCurl.init "http://x" "stale" []).error.msg = " "
    ∧ ((FetchURL { trOk with perform := fun _ => ⟨0, ["body"], "", 1, 4⟩ }
        EasyCurl.init "http://x" "stale" []).error.msg.toList.all
          (fun ch => ch.isDigit = false)) := by
  refine ⟨by decide, by decide, by decide⟩

/-- C5: when every configuration step succeeds and the transport
round-trip succeeds with a status code in [200,300), the call returns Ok
(empty message) and the destination buffer is exactly the concatenation,
in arrival order, of the chunks the transport delivered to the write
callback (when return_headers is set the transport delivers the header
text as leading chunks, so it is prepended by the same equation).  The
previous buffer content `dst0` does not appear: it is cleared first. -/
theorem success_2xx_body (tr : Transport) (st : EasyCurl) (url : String)
    (post_data : Option String) (dst0 : String) (headers : List String)
    (hset : ∀ op, tr.setoptCode op = 0)
    (hperf : (tr.perform (configuredHandle st.config url post_data headers st.curl_)).code = 0)
    (hgc : tr.getinfoConnectsCode = 0)
    (hgr : tr.getinfoResponseCode = 0)
    (hlo : 200 ≤ (tr.perform (configuredHandle st.config url post_data headers st.curl_)).responseCode)
    (hhi : (tr.perform (configuredHandle st.config url post_data headers st.curl_)).responseCode < 300) :
    (DoRequest tr st url post_data dst0 headers).error = Error.ofCode ErrorCode.kOk
    ∧ (DoRequest tr st url post_data dst0 headers).dst
        = String.join (tr.perform (configuredHandle st.config url post_data headers st.curl_)).chunks := by
  have herr : (DoRequest tr st url post_data dst0 headers).error
      = (doRequestCore tr st.config url post_data headers st.curl_).error := rfl
  have hdst : (DoRequest tr st url post_data dst0 headers).dst
      = (doRequestCore tr st.config url post_data headers st.curl_).dst := rfl
  have hnot : ¬((tr.perform (configuredHandle st.config url post_data headers st.curl_)).responseCode < 200
      ∨ 300 ≤ (tr.perform (configuredHandle st.config url post_data headers st.curl_)).responseCode) := by
    omega
  rw [herr, hdst, doRequestCore_all_ok tr st.config url post_data headers st.curl_ hset]
  unfold postPerform
  simp [hperf, hgc, hgr, hnot, performDst_eq]

/-- C5 witness: concrete successful 200 round-trip against `trOk`. -/
theorem success_2xx_body_witness :
    (DoRequest trOk EasyCurl.init "http://x" none "stale" []).error
        = Error.ofCode ErrorCode.kOk
    ∧ (DoRequest trOk EasyCurl.init "http://x" none "stale" []).dst
        = String.join (trOk.perform (configuredHandle EasyCurl.init.config "http://x" none []
            EasyCurl.init.curl_)).chunks :=
  success_2xx_body trOk EasyCurl.init "http://x" none "stale" []
    (fun _ => rfl) rfl rfl rfl (by decide) (by decide)

/-- C8: the header list handed to the transport through the
CURLOPT_HTTPHEADER setopt is exactly the given header strings, in the
given order, unmodified — duplicates included, since the list is the
input sequence itself. -/
theorem headers_passed_in_order (tr : Transport) (st : EasyCurl) (url : String)
    (post_data : Option String) (dst0 : String) (headers : List String)
    (hset : ∀ op, tr.setoptCode op = 0) :
    slistOf headers = headers
    ∧ Event.setopt (SetOp.httpheader headers) 0
        ∈ (DoRequest tr st url post_data dst0 headers).events := by
  refine ⟨slistOf_eq headers, ?_⟩
  have he : (DoRequest tr st url post_data dst0 headers).events
      = (doRequestCore tr st.config url post_data headers st.curl_).events := rfl
  rw [he, doRequestCore_all_ok tr st.config url post_data headers st.curl_ hset,
    postPerform_events]
  simp [opsB, okEvents, slistOf_eq]

/-- C8 witness: a duplicated header is handed through twice. -/
theorem headers_passed_in_order_witness :
    slistOf ["X-A: 1", "X-A: 1"] = ["X-A: 1", "X-A: 1"]
    ∧ Event.setopt (SetOp.httpheader ["X-A: 1", "X-A: 1"]) 0
        ∈ (DoRequest trOk EasyCurl.init "http://x" none "" ["X-A: 1", "X-A: 1"]).events :=
  headers_passed_in_order trOk EasyCurl.init "http://x" none "" ["X-A: 1", "X-A: 1"]
    (fun _ => rfl)

/-- C4: for every auth mode value that is neither NONE nor BASIC (such
values exist because the scoped enum's underlying type is int), a
successful call issues CURLOPT_HTTPAUTH = CURLAUTH_ANY — "try all
supported HTTP auth mechanisms" — and hands the stored username and
password to the transport. -/
theorem auth_any_reachable (tr : Transport) (st : EasyCurl) (url : String)
    (post_data : Option String) (dst0 : String) (headers : List String)
    (hset : ∀ op, tr.setoptCode op = 0)
    (h1 : st.auth_type_ ≠ CurlAuthType.NONE)
    (h2 : st.auth_type_ ≠ CurlAuthType.BASIC) :
    Event.setopt (SetOp.httpauth HttpAuthVal.any) 0
        ∈ (DoRequest tr st url post_data dst0 headers).events
    ∧ Event.setopt (SetOp.username st.username_) 0
        ∈ (DoRequest tr st url post_data dst0 headers).events
    ∧ Event.setopt (SetOp.password st.password_) 0
        ∈ (DoRequest tr st url post_data dst0 headers).events := by
  have he : (DoRequest tr st url post_data dst0 headers).events
      = (doRequestCore tr st.config url post_data headers st.curl_).events := rfl
  rw [he, doRequestCore_all_ok tr st.config url post_data headers st.curl_ hset,
    postPerform_events]
  refine ⟨?_, ?_, ?_⟩ <;>
    simp [opsA, okEvents, h1, h2, EasyCurl.config]

/-- C4 witness: auth mode value 2 (neither NONE = 0 nor BASIC = 1). -/
theorem auth_any_reachable_witness :
    Event.setopt (SetOp.httpauth HttpAuthVal.any) 0
        ∈ (DoRequest trOk
            { EasyCurl.init with auth_type_ := 2, username_ := "u1", password_ := "p1" }
            "http://x" none "" []).events
    ∧ Event.setopt (SetOp.username "u1") 0
        ∈ (DoRequest trOk
            { EasyCurl.init with auth_type_ := 2, username_ := "u1", password_ := "p1" }
            "http://x" none "" []).events
    ∧ Event.setopt (SetOp.password "p1") 0
        ∈ (DoRequest trOk
            { EasyCurl.init with auth_type_ := 2, username_ := "u1", password_ := "p1" }
            "http://x" none "" []).events :=
  auth_any_reachable trOk
    { EasyCurl.init with auth_type_ := 2, username_ := "u1", password_ := "p1" }
    "http://x" none "" [] (fun _ => rfl) (by decide) (by decide)

/-- C3, counterexample: the reused handle keeps previously-set options.
Enable verbose, make a call, disable verbose, make a second call: the
handle state at the second call's perform step still has verbose set, so
the next request does NOT run without the option, contradicting the
claim. -/
theorem verbose_off_not_applied_cex :
    (performEvents (DoRequest trOk
        ((DoRequest trOk (EasyCurl.init.set_verbose true) "u" none "" []).st.set_verbose false)
        "u" none "" []).events).map (fun p => p.1.verbose) = [true] := by
  decide

/-- C3, amended: each setter updates the stored configuration and the
next call applies every currently-enabled option on top of the reused
handle's existing option store; but options are only ever set, never
cleared, so the perform step of the next call runs with the old handle
value OR-ed with the stored flag (and keeps the old timeout / DNS
override when the stored value is non-positive / empty). -/
theorem next_call_options_sticky (tr : Transport) (st : EasyCurl) (url : String)
    (post_data : Option String) (dst0 : String) (headers : List String)
    (hset : ∀ op, tr.setoptCode op = 0) :
    performEvents (DoRequest tr st url post_data dst0 headers).events
      = [(configuredHandle st.config url post_data headers st.curl_,
          (tr.perform (configuredHandle st.config url post_data headers st.curl_)).code)]
    ∧ (configuredHandle st.config url post_data headers st.curl_).verbose
        = (st.curl_.verbose || st.verbose_)
    ∧ (configuredHandle st.config url post_data headers st.curl_).failonerror
        = (st.curl_.failonerror || st.fail_on_http_error_)
    ∧ (configuredHandle st.config url post_data headers st.curl_).header
        = (st.curl_.header || st.return_headers_)
    ∧ (configuredHandle st.config url post_data headers st.curl_).timeout
        = (if 0 < st.timeout_secs_ then st.timeout_secs_ else st.curl_.timeout)
    ∧ (configuredHandle st.config url post_data headers st.curl_).dns_servers
        = (if st.dns_servers_ ≠ "" then some st.dns_servers_ else st.curl_.dns_servers)
    ∧ (configuredHandle st.config url post_data headers st.curl_).httpheader = headers
    ∧ (configuredHandle st.config url post_data headers st.curl_).url = some url := by
  refine ⟨?_, ?_, ?_, ?_, ?_, ?_, ?_, ?_⟩
  · have he : (DoRequest tr st url post_data dst0 headers).events
        = (doRequestCore tr st.config url post_data headers st.curl_).events := rfl
    rw [he, doRequestCore_all_ok tr st.config url post_data headers st.curl_ hset,
      postPerform_performEvents]
    simp [performEvents_append, performEvents_okEvents, performEvents_appendEvents]
  · simp [configuredHandle, handleA, handleB, EasyCurl.config]
  · simp [configuredHandle, handleA, handleB, EasyCurl.config]
  · simp [configuredHandle, handleA, handleB, EasyCurl.config]
  · simp [configuredHandle, handleA, handleB, EasyCurl.config]
  · simp [configuredHandle, handleA, handleB, EasyCurl.config]
  · simp [configuredHandle, handleA, handleB, EasyCurl.config, slistOf_eq]
  · simp [configuredHandle, handleA, handleB, EasyCurl.config]

/-- C3 witness: the amended theorem applied at a concrete state with
verbose previously set on the handle but disabled in the configuration;
the perform handle is the sticky one. -/
theorem next_call_options_sticky_witness :
    performEvents (DoRequest trOk
        { EasyCurl.init with curl_ := { CurlHandle.initial with verbose := true } }
        "u" none "" []).events
      = [(configuredHandle
            ({ EasyCurl.init with curl_ := { CurlHandle.initial with verbose := true } } : EasyCurl).config
            "u" none [] { CurlHandle.initial with verbose := true },
          (trOk.perform (configuredHandle
            ({ EasyCurl.init with curl_ := { CurlHandle.initial with verbose := true } } : EasyCurl).config
            "u" none [] { CurlHandle.initial with verbose := true })).code)] :=
  (next_call_options_sticky trOk
    { EasyCurl.init with curl_ := { CurlHandle.initial with verbose := true } }
    "u" none "" [] (fun _ => rfl)).1

/-- C9, counterexample: on an exit path taken when the auth setopt fails
(auth configured BASIC, transport rejects CURLOPT_HTTPAUTH), the call
returns before the scoped cleanup is even armed, and the header list is
released zero times, not exactly once: the claim's "every exit path"
does not hold for the auth/verbose/fail-on-http-error configuration
failures, which happen before the list exists. -/
theorem slist_release_cex :
    (DoRequest
        { trOk with setoptCode := fun op => match op with
            | SetOp.httpauth _ => 5
            | _ => 0 }
        { EasyCurl.init with auth_type_ := CurlAuthType.BASIC }
        "http://x" none "" ["H: 1"]).error.code = ErrorCode.kNetworkError
    ∧ countFree (DoRequest
        { trOk with setoptCode := fun op => match op with
            | SetOp.httpauth _ => 5
            | _ => 0 }
        { EasyCurl.init with auth_type_ := CurlAuthType.BASIC }
        "http://x" none "" ["H: 1"]).events = 0 := by
  refine ⟨by decide, by decide⟩

/-- C9, amended: the per-call header list is released exactly once on
every exit path at or after the point where the scoped cleanup is armed
(immediately before the headers are appended): header/URL/write/POST/
timeout/DNS configuration failures, perform failure, getinfo failure,
status-range return and the success return all free the list once.
Exit paths taken earlier — a failing auth, credential, verbose or
fail-on-http-error setopt, exactly those where `firstFail` on the
pre-header-list option sequence is `some` — return before the list
exists and release nothing. -/
theorem slist_released_iff_armed (tr : Transport) (st : EasyCurl) (url : String)
    (post_data : Option String) (dst0 : String) (headers : List String) :
    countFree (DoRequest tr st url post_data dst0 headers).events
      = (if (firstFail tr (opsA st.config)).isNone then 1 else 0) :=
  core_countFree tr st.config url post_data headers st.curl_

/-- C6: num_connects_ is overwritten only by a call whose perform step
succeeded (clause 1: any change implies the perform and the subsequent
getinfo succeeded, and the new value is the transport's count for this
call's handle); and after a call that completed the connection-count
read, num_connects() equals the transport's count for the latest call —
the same value whatever num_connects_ held before (clause 2) — and is
non-negative whenever the transport reports a non-negative count. -/
theorem num_connects_reflects_latest (tr : Transport) (st : EasyCurl) (url : String)
    (post_data : Option String) (dst0 : String) (headers : List String) :
    ((DoRequest tr st url post_data dst0 headers).st.num_connects_ ≠ st.num_connects_ →
      ((tr.perform (configuredHandle st.config url post_data headers st.curl_)).code = 0
       ∧ tr.getinfoConnectsCode = 0
       ∧ (DoRequest tr st url post_data dst0 headers).st.num_connects_
           = (tr.perform (configuredHandle st.config url post_data headers st.curl_)).numConnects))
    ∧ ((tr.perform (configuredHandle st.config url post_data headers st.curl_)).code = 0 →
       tr.getinfoConnectsCode = 0 →
       (∀ op, tr.setoptCode op = 0) →
       ((DoRequest tr st url post_data dst0 headers).st.num_connects_
          = (tr.perform (configuredHandle st.config url post_data headers st.curl_)).numConnects
        ∧ (∀ n : Int,
            (DoRequest tr { st with num_connects_ := n } url post_data dst0 headers).st.num_connects_
              = (tr.perform (configuredHandle st.config url post_data headers st.curl_)).numConnects)
        ∧ (0 ≤ (tr.perform (configuredHandle st.config url post_data headers st.curl_)).numConnects →
           0 ≤ (DoRequest tr st url post_data dst0 headers).st.num_connects_))) := by
  have hnum : (DoRequest tr st url post_data dst0 headers).st.num_connects_
      = ((doRequestCore tr st.config url post_data headers st.curl_).nc).getD st.num_connects_ :=
    rfl
  constructor
  · intro hne
    rcases core_nc tr st.config url post_data headers st.curl_ with hnone | ⟨hp, hg, hsome⟩
    · rw [hnum, hnone] at hne
      simp at hne
    · exact ⟨hp, hg, by rw [hnum, hsome]; rfl⟩
  · intro hp hg hset
    have hsome : (doRequestCore tr st.config url post_data headers st.curl_).nc
        = some (tr.perform (configuredHandle st.config url post_data headers st.curl_)).numConnects := by
      rw [doRequestCore_all_ok tr st.config url post_data headers st.curl_ hset]
      exact postPerform_nc_of_ok tr (slistOf headers) _ hp hg
    have h1 : (DoRequest tr st url post_data dst0 headers).st.num_connects_
        = (tr.perform (configuredHandle st.config url post_data headers st.curl_)).numConnects := by
      rw [hnum, hsome]; rfl
    refine ⟨h1, ?_, ?_⟩
    · intro n
      have hnum' : (DoRequest tr { st with num_connects_ := n } url post_data dst0 headers).st.num_connects_
          = ((doRequestCore tr st.config url post_data headers st.curl_).nc).getD n := rfl
      rw [hnum', hsome]; rfl
    · intro hge
      rw [h1]; exact hge

/-- C6 witness: concrete call on `trOk` (count 1 ≥ 0, perform
succeeded). -/
theorem num_connects_reflects_latest_witness :
    (DoRequest trOk EasyCurl.init "http://x" none "" []).st.num_connects_
      = (trOk.perform (configuredHandle EasyCurl.init.config "http://x" none []
          EasyCurl.init.curl_)).numConnects :=
  ((num_connects_reflects_latest trOk EasyCurl.init "http://x" none "" []).2
    rfl rfl (fun _ => rfl)).1

/-- C7: (i) the result (destination buffer and returned Error) of a call
does not depend on the destination buffer's content before the call —
`dst->clear()` runs first, so no data from a previous call leaks in; and
(ii) two consecutive calls with identical configuration against the same
deterministic transport produce identical (body, Error.code) pairs: the
second call re-applies the same options to the reused handle, which is a
fixed point of that application, so the perform step sees the same
handle state.  (`post_data = none` is `FetchURL`, `some body` is
`PostToURL`.) -/
theorem request_repeat_deterministic (tr : Transport) (st : EasyCurl) (url : String)
    (post_data : Option String) (dst0 dst1 dst2 : String) (headers : List String) :
    ((DoRequest tr st url post_data dst0 headers).dst
        = (DoRequest tr st url post_data dst1 headers).dst
     ∧ (DoRequest tr st url post_data dst0 headers).error
        = (DoRequest tr st url post_data dst1 headers).error)
    ∧ ((DoRequest tr (DoRequest tr st url post_data dst0 headers).st url post_data dst2 headers).dst
        = (DoRequest tr st url post_data dst0 headers).dst
     ∧ (DoRequest tr (DoRequest tr st url post_data dst0 headers).st url post_data dst2 headers).error.code
        = (DoRequest tr st url post_data dst0 headers).error.code) := by
  constructor
  · exact ⟨rfl, rfl⟩
  · have h := core_repeat tr st.config url post_data headers st.curl_
    exact ⟨h.2, congrArg Error.code h.1⟩
